import Mathlib

/-!
Verification of the OpenQASM 3.0 parser facade (src/parser/parser.go) of the
qasmparser repository.  Source text is embedded as `List Char`; Go `int`
fields are embedded as `Int`; Go `error` results are embedded as `Option`
values; a Go panic is embedded as `Except.error`.

The hand-written facade lives in src/parser/parser.go.  The generated ANTLR
recognizers (produced into gen/parser by the repository build task named
`generate`) and the files defining the AST, ParseResult, ParseError and
ErrorListener are not present under src/, so those parts are modelled from
the spec; each such definition carries a doc comment starting with
`Modelled from the spec:`.
-/

namespace QasmParser

/-- Position from the data model: 1-based line and column plus byte offset.
Modelled from the spec: the AST source file is absent from src/; the field
set is fixed by the spec data model and by the tests in src. -/
structure Position where
  line : Int
  column : Int
  offset : Int
deriving DecidableEq

/-- ParseError, the diagnostic record: message, Position, kind tag and an
optional free-text context.  Modelled from the spec: the errors source file
is absent from src/; the field set is fixed by the spec data model and by
the tests in src. -/
structure ParseError where
  message : String
  position : Position
  type : String
  context : String
deriving DecidableEq

/-- BaseNode carries the start and end Position of a node.
Modelled from the spec: the AST source file is absent from src/. -/
structure BaseNode where
  position : Position
  endPos : Position
deriving DecidableEq

/-- Comment node: text plus a line/block marker.
Modelled from the spec: the AST source file is absent from src/. -/
structure Comment where
  text : String
  block : Bool
deriving DecidableEq

/-- Version node holding the version number string.
Modelled from the spec: the AST source file is absent from src/. -/
structure Version where
  number : String
deriving DecidableEq

/-- Expression family of the AST.
Modelled from the spec: the AST source file is absent from src/; variants
follow the spec data model (literals, unary and binary operations, index
access). -/
inductive Expression where
  | intLit (value : Int)
  | floatLit (text : String)
  | identifier (name : String)
  | unary (op : String) (operand : Expression)
  | binary (op : String) (lhs rhs : Expression)
  | indexAccess (base idx : Expression)

/-- Statement variants of the AST.
Modelled from the spec: the AST source file is absent from src/; variants
follow the spec data model (include, declarations, gate calls, measurement,
plus the recovery placeholder). -/
inductive Statement where
  | includeStmt (path : String)
  | quantumDeclaration (typeName identifier : String) (size : Option Expression)
  | classicalDeclaration (typeName identifier : String)
      (size initializer : Option Expression)
  | gateCall (name : String) (params operands : List Expression)
  | measurement (source : Expression) (target : Option Expression)
  | unrecognized

/-- Program, the AST root: base positions, optional version, statements and
comments.  Modelled from the spec: the AST source file is absent from src/;
the field set is fixed by the spec data model and by the tests in src. -/
structure Program where
  baseNode : BaseNode
  version : Option Version
  statements : List Statement
  comments : List Comment

/-- ParseResult owns the possibly partial Program and the ordered
diagnostics list.  Modelled from the spec: the errors source file is absent
from src/. -/
structure ParseResult where
  program : Program
  errors : List ParseError

/-- HasErrors is true exactly when the diagnostics list is non-empty.
Modelled from the spec: the errors source file is absent from src/; the
spec states that having errors is equivalent to a non-empty diagnostics
list, as the tests in src also check. -/
def ParseResult.hasErrors (r : ParseResult) : Bool :=
  !r.errors.isEmpty

/-- ParseOptions, translated from src/parser/parser.go. -/
structure ParseOptions where
  strictMode : Bool
  includeComments : Bool
  errorRecovery : Bool
  maxErrors : Int
deriving DecidableEq

/-- DefaultParseOptions, translated from src/parser/parser.go. -/
def defaultParseOptions : ParseOptions :=
  { strictMode := false
    includeComments := true
    errorRecovery := true
    maxErrors := 100 }

/-- Parser holds the configured options, translated from
src/parser/parser.go. -/
structure Parser where
  options : ParseOptions
deriving DecidableEq

/-- NewParser, translated from src/parser/parser.go. -/
def newParser : Parser :=
  { options := defaultParseOptions }

/-- NewParserWithOptions, translated from src/parser/parser.go; the Go nil
pointer argument is embedded as `none`. -/
def newParserWithOptions (opts : Option ParseOptions) : Parser :=
  match opts with
  | none => { options := defaultParseOptions }
  | some o => { options := o }

/-- Replacement of every non-overlapping occurrence of CR LF by LF,
scanning left to right; translation of the Go standard library call
replacing the two-character sequence in preprocessContent. -/
def replaceCRLF : List Char → List Char
  | [] => []
  | '\r' :: '\n' :: rest => '\n' :: replaceCRLF rest
  | c :: rest => c :: replaceCRLF rest

/-- Replacement of every CR by LF; translation of the Go standard library
call replacing the one-character sequence in preprocessContent. -/
def replaceCR (l : List Char) : List Char :=
  l.map fun c => if c = '\r' then '\n' else c

/-- Test for a trailing LF; translation of the Go standard library suffix
test used in preprocessContent. -/
def endsWithNL (l : List Char) : Bool :=
  l.getLast? == some '\n'

/-- PreprocessContent, translated from src/parser/parser.go: normalize CR LF
and CR to LF, then append LF when the text does not already end with one. -/
def preprocessContent (content : List Char) : List Char :=
  let c1 := replaceCRLF content
  let c2 := replaceCR c1
  if endsWithNL c2 then c2 else c2 ++ ['\n']

/-- Grammar stands for the generated ANTLR recognizers.
Modelled from the spec: the generated lexer and parser (placed in
gen/parser by the build) are absent from src/; the placeholder bodies in
src/parser/parser.go name them as their replacements.  Per the spec the
recognizers report each lexical and each syntactic diagnostic for a given
normalized text to the attached error listeners and never throw a hard
failure for recoverable errors, so they are modelled as two total functions
giving the emitted diagnostics of each phase. -/
structure Grammar where
  lexDiags : List Char → List ParseError
  synDiags : List Char → List ParseError

/-- Diagnostics captured by an error listener.
Modelled from the spec: the errors source file defining ErrorListener is
absent from src/; a listener collects the diagnostics reported to it, and a
listener that was never attached collects none.  In ParseWithErrors the
listeners are attached exactly when ErrorRecovery is disabled. -/
def collectedErrors (attached : Bool) (emitted : List ParseError) : List ParseError :=
  if attached then emitted else []

/-- Diagnostics collected by the two listeners of ParseWithErrors, lexer
phase first, translated from src/parser/parser.go lines 119 to 144. -/
def collectedDiags (G : Grammar) (p : Parser) (c : List Char) : List ParseError :=
  collectedErrors (!p.options.errorRecovery) (G.lexDiags c) ++
    collectedErrors (!p.options.errorRecovery) (G.synDiags c)

/-- Truncation of the diagnostics list at the configured cap, translated
from src/parser/parser.go lines 146 to 149. -/
def capErrors (maxErrors : Int) (allErrors : List ParseError) : List ParseError :=
  if 0 < maxErrors ∧ maxErrors < (allErrors.length : Int) then
    allErrors.take maxErrors.toNat
  else
    allErrors

/-- ConvertToAST, translated from src/parser/parser.go: builds the minimal
Program for the preprocessed content, with empty statement and comment
lists and positions derived from the content length. -/
def convertToAST (content : List Char) : Program :=
  { baseNode :=
      { position := { line := 1, column := 1, offset := 0 }
        endPos :=
          { line := 1
            column := (content.length : Int)
            offset := (content.length : Int) } }
    version := none
    statements := []
    comments := [] }

/-- ParseWithErrors with the generated recognizers installed, translated
from src/parser/parser.go: preprocess the content, run both phases with
listeners attached exactly when ErrorRecovery is disabled, concatenate the
captured diagnostics, truncate at the cap, and build the AST. -/
def parseWithErrors (G : Grammar) (p : Parser) (content : List Char) : ParseResult :=
  let c := preprocessContent content
  { program := convertToAST c
    errors := capErrors p.options.maxErrors (collectedDiags G p c) }

/-- Go error values returned by the facade: a wrapped diagnostic, a context
error, or an input/output error. -/
inductive GoError where
  | parseErr : ParseError → GoError
  | ctxErr : String → GoError
  | ioErr : String → GoError
deriving DecidableEq

/-- ParseString, translated from src/parser/parser.go: run ParseWithErrors
and fail with the first diagnostic when there are errors, returning the
built program in either case. -/
def parseString (G : Grammar) (p : Parser) (content : List Char) :
    Option Program × Option GoError :=
  let result := parseWithErrors G p content
  if result.hasErrors then
    (some result.program, result.errors.head?.map GoError.parseErr)
  else
    (some result.program, none)

/-- Validate, translated from src/parser/parser.go: run ParseWithErrors and
report only the first diagnostic. -/
def validate (G : Grammar) (p : Parser) (content : List Char) : Option GoError :=
  let result := parseWithErrors G p content
  if result.hasErrors then
    result.errors.head?.map GoError.parseErr
  else
    none

/-- Context carries only the cancellation state observable through its Err
method, embedded as an optional error string. -/
structure Context where
  err : Option String

/-- ParseWithContext, translated from src/parser/parser.go: return the
context error when the context is already cancelled, otherwise parse
directly without any further cancellation check. -/
def parseWithContext (G : Grammar) (p : Parser) (ctx : Context) (content : List Char) :
    Option Program × Option GoError :=
  match ctx.err with
  | some e => (none, some (GoError.ctxErr e))
  | none => parseString G p content

/-- ParseReader, translated from src/parser/parser.go: the result of
reading the whole reader is passed in as an `Except` value; a read failure
is returned at once as an input/output error and nothing is parsed,
otherwise ParseString runs on the read content. -/
def parseReader (G : Grammar) (p : Parser) (readResult : Except String (List Char)) :
    Option Program × Option GoError :=
  match readResult with
  | Except.error e => (none, some (GoError.ioErr e))
  | Except.ok content => parseString G p content

/-- ParseFile, translated from src/parser/parser.go: the filesystem is
passed in as a function from file names to read results; a read failure is
returned at once as an input/output error and nothing is parsed, otherwise
ParseString runs on the read content. -/
def parseFile (G : Grammar) (p : Parser) (fs : String → Except String (List Char))
    (filename : String) : Option Program × Option GoError :=
  match fs filename with
  | Except.error e => (none, some (GoError.ioErr e))
  | Except.ok content => parseString G p content

/-- Message of the panic in the committed createLexer placeholder,
translated from src/parser/parser.go line 179. -/
def createLexerMsg : String :=
  "Generated lexer not available - run \x27task generate\x27 to create ANTLR files"

/-- Message of the panic in the committed createParser and parseProgram
placeholders, translated from src/parser/parser.go lines 187 and 195. -/
def createParserMsg : String :=
  "Generated parser not available - run \x27task generate\x27 to create ANTLR files"

/-- CreateLexer as committed in src/parser/parser.go: the placeholder body
panics unconditionally, embedded as an `Except.error`. -/
def createLexerCommitted : Except String Unit :=
  Except.error createLexerMsg

/-- CreateParser as committed in src/parser/parser.go: the placeholder body
panics unconditionally, embedded as an `Except.error`. -/
def createParserCommitted : Except String Unit :=
  Except.error createParserMsg

/-- ParseProgram as committed in src/parser/parser.go: the placeholder body
panics unconditionally, embedded as an `Except.error`. -/
def parseProgramCommitted : Except String Unit :=
  Except.error createParserMsg

/-- ParseWithErrors exactly as committed in src/parser/parser.go, where
createLexer, createParser and parseProgram are the panicking placeholders:
the pipeline preprocesses the content and then aborts inside createLexer
before any token is read. -/
def parseWithErrorsCommitted (G : Grammar) (p : Parser) (content : List Char) :
    Except String ParseResult :=
  let c := preprocessContent content
  match createLexerCommitted with
  | Except.error e => Except.error e
  | Except.ok _ =>
    match createParserCommitted with
    | Except.error e => Except.error e
    | Except.ok _ =>
      match parseProgramCommitted with
      | Except.error e => Except.error e
      | Except.ok _ =>
        Except.ok
          { program := convertToAST c
            errors := capErrors p.options.maxErrors (collectedDiags G p c) }

/-- Fixture grammar emitting no diagnostics, used by witnesses. -/
def emptyGrammar : Grammar :=
  { lexDiags := fun _ => [], synDiags := fun _ => [] }

/-- Fixture diagnostic, used by witnesses. -/
def errFirst : ParseError :=
  { message := "first error"
    position := { line := 1, column := 1, offset := 0 }
    type := "syntax"
    context := "" }

/-- Second fixture diagnostic, used by witnesses. -/
def errSecond : ParseError :=
  { message := "second error"
    position := { line := 2, column := 3, offset := 9 }
    type := "syntax"
    context := "" }

/-- Fixture grammar emitting one lexical diagnostic, used by witnesses. -/
def oneDiagGrammar : Grammar :=
  { lexDiags := fun _ => [errFirst], synDiags := fun _ => [] }

/-- Fixture grammar emitting two diagnostics, used by witnesses. -/
def twoDiagGrammar : Grammar :=
  { lexDiags := fun _ => [errFirst], synDiags := fun _ => [errSecond] }

/-- Fixture parser with error recovery disabled, used by witnesses. -/
def noRecoveryParser : Parser :=
  newParserWithOptions (some
    { strictMode := false
      includeComments := true
      errorRecovery := false
      maxErrors := 100 })

/-- Fixture parser with error recovery disabled and a cap of one, used by
witnesses. -/
def capOneParser : Parser :=
  newParserWithOptions (some
    { strictMode := false
      includeComments := true
      errorRecovery := false
      maxErrors := 1 })

/-- Fixture parser with error recovery disabled and a non-positive cap,
used by witnesses. -/
def capZeroParser : Parser :=
  newParserWithOptions (some
    { strictMode := false
      includeComments := true
      errorRecovery := false
      maxErrors := 0 })

/-- C9: the default ParseOptions have StrictMode false, IncludeComments
true, ErrorRecovery true and MaxErrors 100, and NewParser uses them. -/
theorem defaultParseOptions_values :
    defaultParseOptions.strictMode = false ∧
    defaultParseOptions.includeComments = true ∧
    defaultParseOptions.errorRecovery = true ∧
    defaultParseOptions.maxErrors = 100 ∧
    newParser.options = defaultParseOptions :=
  ⟨rfl, rfl, rfl, rfl, rfl⟩

/-- C1: evaluation of the committed pipeline at the empty input: contrary
to the claim that ParseWithErrors never fails outright, the committed code
aborts inside the createLexer placeholder on every input, so it aborts in
particular on the empty string and never returns a ParseResult. -/
theorem parseWithErrorsCommitted_panics_on_empty :
    parseWithErrorsCommitted emptyGrammar newParser [] = Except.error createLexerMsg :=
  rfl

/-- Helper: the carriage return character never survives replaceCR. -/
theorem not_cr_mem_replaceCR (l : List Char) : '\r' ∉ replaceCR l := by
  intro h
  simp only [replaceCR, List.mem_map] at h
  obtain ⟨a, _, ha⟩ := h
  by_cases hc : a = '\r'
  · rw [if_pos hc] at ha
    exact absurd ha (by decide)
  · rw [if_neg hc] at ha
    exact hc ha

/-- C5: the text handed to the lexer is the preprocessed content: CR LF and
lone CR become LF, a trailing LF is appended exactly when the normalized
text does not already end with one, so the lexed text has no carriage
return and always ends with a newline; the parse outcome depends on the
input only through its preprocessed form. -/
theorem preprocessContent_normalizes (c : List Char) :
    '\r' ∉ preprocessContent c ∧
    (preprocessContent c).getLast? = some '\n' ∧
    (endsWithNL (replaceCR (replaceCRLF c)) = true →
      preprocessContent c = replaceCR (replaceCRLF c)) ∧
    (endsWithNL (replaceCR (replaceCRLF c)) = false →
      preprocessContent c = replaceCR (replaceCRLF c) ++ ['\n']) ∧
    (∀ (G : Grammar) (p : Parser) (c2 : List Char),
      preprocessContent c = preprocessContent c2 →
      parseWithErrors G p c = parseWithErrors G p c2) := by
  have hpre : preprocessContent c =
      if endsWithNL (replaceCR (replaceCRLF c)) then replaceCR (replaceCRLF c)
      else replaceCR (replaceCRLF c) ++ ['\n'] := rfl
  have hind : ∀ (G : Grammar) (p : Parser) (c2 : List Char),
      preprocessContent c = preprocessContent c2 →
      parseWithErrors G p c = parseWithErrors G p c2 := by
    intro G p c2 hp
    simp only [parseWithErrors, hp]
  have hmem : '\r' ∉ preprocessContent c := by
    rw [hpre]
    by_cases h : endsWithNL (replaceCR (replaceCRLF c)) = true
    · rw [if_pos h]
      exact not_cr_mem_replaceCR _
    · rw [if_neg h]
      intro hm
      rcases List.mem_append.mp hm with hm1 | hm2
      · exact not_cr_mem_replaceCR _ hm1
      · simp at hm2
  have hlast : (preprocessContent c).getLast? = some '\n' := by
    rw [hpre]
    by_cases h : endsWithNL (replaceCR (replaceCRLF c)) = true
    · rw [if_pos h]
      simpa [endsWithNL] using h
    · rw [if_neg h]
      simp
  refine ⟨hmem, hlast, fun ht => ?_, fun hf => ?_, hind⟩
  · rw [hpre, if_pos ht]
  · rw [hpre, if_neg (by simp [hf])]

/-- Witness for C5 at concrete inputs. -/
theorem preprocessContent_normalizes_witness :
    '\r' ∉ preprocessContent ['a', '\r', 'b'] ∧
    (preprocessContent ['a', '\r', 'b']).getLast? = some '\n' ∧
    preprocessContent ['a', '\r', 'b'] = replaceCR (replaceCRLF ['a', '\r', 'b']) ++ ['\n'] ∧
    parseWithErrors emptyGrammar newParser ['a', '\r', '\n']
      = parseWithErrors emptyGrammar newParser ['a', '\n'] :=
  ⟨(preprocessContent_normalizes ['a', '\r', 'b']).1,
   (preprocessContent_normalizes ['a', '\r', 'b']).2.1,
   (preprocessContent_normalizes ['a', '\r', 'b']).2.2.2.1 (by decide),
   (preprocessContent_normalizes ['a', '\r', '\n']).2.2.2.2 emptyGrammar newParser
     ['a', '\n'] (by decide)⟩

/-- C4: with a positive cap smaller than the number of collected
diagnostics exactly the first cap many collected diagnostics are returned,
in collection order; with a non-positive cap all collected diagnostics are
returned; and the returned list is always an initial segment of the
collected list, so truncation never reorders and never drops an earlier
diagnostic to keep a later one. -/
theorem parseWithErrors_maxErrors_cap (G : Grammar) (p : Parser) (c : List Char) :
    ((0 < p.options.maxErrors ∧
        p.options.maxErrors < ((collectedDiags G p (preprocessContent c)).length : Int)) →
      (parseWithErrors G p c).errors
        = (collectedDiags G p (preprocessContent c)).take p.options.maxErrors.toNat) ∧
    (p.options.maxErrors ≤ 0 →
      (parseWithErrors G p c).errors = collectedDiags G p (preprocessContent c)) ∧
    (∃ t, (parseWithErrors G p c).errors ++ t = collectedDiags G p (preprocessContent c)) := by
  have he : (parseWithErrors G p c).errors
      = capErrors p.options.maxErrors (collectedDiags G p (preprocessContent c)) := rfl
  rw [he]
  unfold capErrors
  refine ⟨fun h => ?_, fun h => ?_, ?_⟩
  · rw [if_pos h]
  · rw [if_neg (fun hc => absurd hc.1 (not_lt.mpr h))]
  · by_cases h : 0 < p.options.maxErrors ∧
        p.options.maxErrors < ((collectedDiags G p (preprocessContent c)).length : Int)
    · rw [if_pos h]
      exact ⟨_, List.take_append_drop _ _⟩
    · rw [if_neg h]
      exact ⟨[], List.append_nil _⟩

/-- Witness for C4: with two collected diagnostics a cap of one keeps only
the first, and a cap of zero keeps both. -/
theorem parseWithErrors_maxErrors_cap_witness :
    (parseWithErrors twoDiagGrammar capOneParser []).errors
      = (collectedDiags twoDiagGrammar capOneParser (preprocessContent [])).take
          capOneParser.options.maxErrors.toNat ∧
    (parseWithErrors twoDiagGrammar capZeroParser []).errors
      = collectedDiags twoDiagGrammar capZeroParser (preprocessContent []) :=
  ⟨(parseWithErrors_maxErrors_cap twoDiagGrammar capOneParser []).1 (by decide),
   (parseWithErrors_maxErrors_cap twoDiagGrammar capZeroParser []).2.1 (by decide)⟩

/-- C2: ParseString fails exactly when the pipeline collected at least one
diagnostic, in that case wrapping the first collected diagnostic, and on a
clean parse returns the built tree with no error. -/
theorem parseString_error_iff_first_diag (G : Grammar) (p : Parser) (c : List Char) :
    ((parseString G p c).2 ≠ none ↔ (parseWithErrors G p c).errors ≠ []) ∧
    (∀ e rest, (parseWithErrors G p c).errors = e :: rest →
      (parseString G p c).2 = some (GoError.parseErr e)) ∧
    ((parseWithErrors G p c).errors = [] →
      parseString G p c = (some (parseWithErrors G p c).program, none)) := by
  rcases hl : (parseWithErrors G p c).errors with _ | ⟨e0, rest0⟩
  · refine ⟨?_, ?_, fun _ => ?_⟩
    · simp [parseString, ParseResult.hasErrors, hl]
    · intro e rest hr
      simp at hr
    · simp [parseString, ParseResult.hasErrors, hl]
  · refine ⟨?_, ?_, fun hn => ?_⟩
    · simp [parseString, ParseResult.hasErrors, hl]
    · intro e rest hr
      injection hr with h1 h2
      subst h1
      simp [parseString, ParseResult.hasErrors, hl]
    · simp at hn

/-- Witness for C2: one collected diagnostic makes ParseString fail with
it, and a clean parse returns the tree with no error. -/
theorem parseString_error_iff_first_diag_witness :
    (parseString oneDiagGrammar noRecoveryParser []).2 = some (GoError.parseErr errFirst) ∧
    parseString emptyGrammar newParser []
      = (some (parseWithErrors emptyGrammar newParser []).program, none) :=
  ⟨(parseString_error_iff_first_diag oneDiagGrammar noRecoveryParser []).2.1 errFirst []
      (by decide),
   (parseString_error_iff_first_diag emptyGrammar newParser []).2.2 (by decide)⟩

/-- C3: Validate returns no error exactly when the pipeline collects zero
diagnostics, always reports exactly the first diagnostic ParseWithErrors
would have produced on the same text, and agrees with the error component
of ParseString. -/
theorem validate_first_diag (G : Grammar) (p : Parser) (c : List Char) :
    (validate G p c = none ↔ (parseWithErrors G p c).errors = []) ∧
    validate G p c = (parseWithErrors G p c).errors.head?.map GoError.parseErr ∧
    validate G p c = (parseString G p c).2 := by
  rcases hl : (parseWithErrors G p c).errors with _ | ⟨e0, rest0⟩ <;>
    simp [validate, parseString, ParseResult.hasErrors, hl]

/-- Witness for C3 at concrete inputs with and without a diagnostic. -/
theorem validate_first_diag_witness :
    (validate oneDiagGrammar noRecoveryParser [] = none ↔
      (parseWithErrors oneDiagGrammar noRecoveryParser []).errors = []) ∧
    validate emptyGrammar newParser []
      = (parseWithErrors emptyGrammar newParser []).errors.head?.map GoError.parseErr :=
  ⟨(validate_first_diag oneDiagGrammar noRecoveryParser []).1,
   (validate_first_diag emptyGrammar newParser []).2.1⟩

/-- C6: parsing is a deterministic function of the text and the options:
two parser values with equal options give structurally identical results,
both trees and diagnostics, for every text. -/
theorem parse_deterministic (G : Grammar) (p1 p2 : Parser) (c : List Char)
    (h : p1.options = p2.options) :
    parseWithErrors G p1 c = parseWithErrors G p2 c ∧
    parseString G p1 c = parseString G p2 c := by
  have hp : p1 = p2 := by
    cases p1
    cases p2
    cases h
    rfl
  subst hp
  exact ⟨rfl, rfl⟩

/-- Witness for C6 on two independently constructed parsers with the same
options. -/
theorem parse_deterministic_witness :
    parseWithErrors emptyGrammar newParser []
      = parseWithErrors emptyGrammar (newParserWithOptions none) [] ∧
    parseString emptyGrammar newParser []
      = parseString emptyGrammar (newParserWithOptions none) [] :=
  parse_deterministic emptyGrammar newParser (newParserWithOptions none) [] rfl

/-- C7: ParseWithContext returns the context error without parsing when the
context is already cancelled at entry, and otherwise returns exactly the
ParseString result on the same text, with no cancellation check during the
parse. -/
theorem parseWithContext_cancellation (G : Grammar) (p : Parser) (ctx : Context)
    (c : List Char) :
    (∀ e, ctx.err = some e →
      parseWithContext G p ctx c = (none, some (GoError.ctxErr e))) ∧
    (ctx.err = none → parseWithContext G p ctx c = parseString G p c) := by
  refine ⟨fun e he => ?_, fun hn => ?_⟩
  · unfold parseWithContext
    rw [he]
  · unfold parseWithContext
    rw [hn]

/-- Witness for C7 on a cancelled and on a live context. -/
theorem parseWithContext_cancellation_witness :
    parseWithContext emptyGrammar newParser { err := some "context canceled" } []
      = (none, some (GoError.ctxErr "context canceled")) ∧
    parseWithContext emptyGrammar newParser { err := none } []
      = parseString emptyGrammar newParser [] :=
  ⟨(parseWithContext_cancellation emptyGrammar newParser
      { err := some "context canceled" } []).1 "context canceled" rfl,
   (parseWithContext_cancellation emptyGrammar newParser { err := none } []).2 rfl⟩

/-- C8: ParseReader and ParseFile return a read failure at once as an
input/output error and parse nothing, delegate to ParseString on the read
content otherwise, and an input/output error is never a wrapped syntax
diagnostic. -/
theorem parseReader_parseFile_io (G : Grammar) (p : Parser)
    (readResult : Except String (List Char))
    (fs : String → Except String (List Char)) (filename : String) :
    (∀ e, readResult = Except.error e →
      parseReader G p readResult = (none, some (GoError.ioErr e))) ∧
    (∀ content, readResult = Except.ok content →
      parseReader G p readResult = parseString G p content) ∧
    (∀ e, fs filename = Except.error e →
      parseFile G p fs filename = (none, some (GoError.ioErr e))) ∧
    (∀ content, fs filename = Except.ok content →
      parseFile G p fs filename = parseString G p content) ∧
    (∀ e pe, GoError.ioErr e ≠ GoError.parseErr pe) := by
  refine ⟨fun e he => ?_, fun content hc => ?_, fun e he => ?_, fun content hc => ?_,
    fun e pe h => ?_⟩
  · unfold parseReader
    rw [he]
  · unfold parseReader
    rw [hc]
  · unfold parseFile
    rw [he]
  · unfold parseFile
    rw [hc]
  · simp at h

/-- Witness for C8 on a failing read, a successful read and a failing file
lookup. -/
theorem parseReader_parseFile_io_witness :
    parseReader emptyGrammar newParser (Except.error "read failed")
      = (none, some (GoError.ioErr "read failed")) ∧
    parseReader emptyGrammar newParser (Except.ok ['x'])
      = parseString emptyGrammar newParser ['x'] ∧
    parseFile emptyGrammar newParser (fun _ => Except.error "no such file") "a.qasm"
      = (none, some (GoError.ioErr "no such file")) ∧
    GoError.ioErr "read failed" ≠ GoError.parseErr errFirst :=
  ⟨(parseReader_parseFile_io emptyGrammar newParser (Except.error "read failed")
      (fun _ => Except.error "no such file") "a.qasm").1 "read failed" rfl,
   (parseReader_parseFile_io emptyGrammar newParser (Except.ok ['x'])
      (fun _ => Except.error "no such file") "a.qasm").2.1 ['x'] rfl,
   (parseReader_parseFile_io emptyGrammar newParser (Except.ok ['x'])
      (fun _ => Except.error "no such file") "a.qasm").2.2.1 "no such file" rfl,
   (parseReader_parseFile_io emptyGrammar newParser (Except.ok ['x'])
      (fun _ => Except.error "no such file") "a.qasm").2.2.2.2 "read failed" errFirst⟩

/-- C10: ParseString always returns the tree built by ParseWithErrors, also
when it returns an error, and NewParserWithOptions falls back to the
default options on a nil argument while storing a given option set as is. -/
theorem parseString_partial_tree_and_nil_options (G : Grammar) (p : Parser)
    (c : List Char) (o : ParseOptions) :
    (parseString G p c).1 = some (parseWithErrors G p c).program ∧
    (newParserWithOptions none).options = defaultParseOptions ∧
    (newParserWithOptions (some o)).options = o := by
  refine ⟨?_, rfl, rfl⟩
  simp only [parseString]
  split <;> rfl

/-- Witness for C10 at an erroring parse. -/
theorem parseString_partial_tree_and_nil_options_witness :
    (parseString oneDiagGrammar noRecoveryParser []).1
      = some (parseWithErrors oneDiagGrammar noRecoveryParser []).program ∧
    (newParserWithOptions none).options = defaultParseOptions :=
  ⟨(parseString_partial_tree_and_nil_options oneDiagGrammar noRecoveryParser []
      defaultParseOptions).1,
   (parseString_partial_tree_and_nil_options oneDiagGrammar noRecoveryParser []
      defaultParseOptions).2.1⟩

end QasmParser
